import Mathlib

/-!
Verification of the tool-orchestration and DOM-analysis core of the
browser-automation agent (src/agent.ts).

The embedding models:
* the DOM elements the extractor script reads (tag, content attributes,
  visibility) together with the HTML IDL reflection rules for the
  properties the script accesses (`.id`, `.name`, `.type`, `.placeholder`,
  `.className`), since the script runs inside a standards-conforming
  browser via page.evaluate;
* the extract_page_elements evaluate callback and its surrounding tool;
* the click / type tool execute functions, with Playwright's
  waitForSelector / click / fill primitives modelled as state transitions
  that may throw (Except), and the source's try/catch;
* the take_screenshot, wait tool execute functions and their zod
  parameter schemas;
* the main task loop: intake via askUser, default-task substitution,
  the try/catch around the runner, and the browser.close teardown.
-/

namespace BrowserAgent

/-- JS String.prototype.trim, modelled on the character list: strip
whitespace from both ends.  (Lean's own String.trim is positional and does
not reduce in the kernel; this model is used wherever the source calls
`.trim()`.) -/
def jsTrim (s : String) : String :=
  ⟨((s.data.dropWhile Char.isWhitespace).reverse.dropWhile
      Char.isWhitespace).reverse⟩

/-- Split a character list on the single-space separator, JS
`String.prototype.split(" ")` semantics (empty input gives one empty
piece; consecutive spaces give empty pieces). -/
def splitOnSpaceChars : List Char → List (List Char)
  | [] => [[]]
  | c :: cs =>
      if c = ' ' then [] :: splitOnSpaceChars cs
      else
        match splitOnSpaceChars cs with
        | [] => [[c]]
        | w :: ws => (c :: w) :: ws

/-- JS `String.prototype.split(" ")` on strings. -/
def jsSplitSpace (s : String) : List String :=
  (splitOnSpaceChars s.data).map (fun l => String.mk l)

/-- Tag names of the element kinds the extractor's three querySelectorAll
calls can match, plus a catch-all for other elements in the document. -/
inductive Tag where
  | form
  | input
  | textarea
  | select
  | button
  | other (tagName : String)
  deriving DecidableEq, Repr

/-- A DOM element as the extractor script sees it: the raw content
attributes (`none` models an absent attribute) plus the dynamic state the
script reads (current value, required flag, offsetParent, textContent,
resolved form action).  The document is a list of these in document
order. -/
structure DomElement where
  tag : Tag
  idAttr : Option String
  nameAttr : Option String
  /-- raw `type` content attribute (the IDL `.type` getter reflects it) -/
  typeAttr : Option String
  placeholderAttr : Option String
  classAttr : Option String
  /-- whether the `multiple` attribute is present (select reflection) -/
  multiple : Bool
  /-- current value of the `.value` IDL property -/
  valueProp : String
  /-- whether the `required` attribute is present -/
  requiredAttr : Bool
  /-- `.textContent` of the node (never null for an element; Option kept
  because the source guards with `?.`) -/
  textContent : Option String
  /-- `.action` IDL property of a form (resolved submission URL) -/
  actionProp : String
  /-- whether `.offsetParent` is non-null (rendered geometry) -/
  hasOffsetParent : Bool
  deriving DecidableEq, Repr

/-- The keyword values of the input `type` attribute recognised by the
HTML standard; `HTMLInputElement.type` reflects the attribute limited to
these known values, with invalid-value and missing-value default
"text". -/
def validInputTypes : List String :=
  ["button", "checkbox", "color", "date", "datetime-local", "email",
   "file", "hidden", "image", "month", "number", "password", "radio",
   "range", "reset", "search", "submit", "tel", "text", "time", "url",
   "week"]

/-- `HTMLInputElement.type` IDL reflection: the attribute value when it is
a known input type, otherwise "text". -/
def reflectInputType : Option String → String
  | none => "text"
  | some t => if t ∈ validInputTypes then t else "text"

/-- `HTMLButtonElement.type` IDL reflection: limited to "submit", "reset",
"button" with missing/invalid default "submit". -/
def reflectButtonType : Option String → String
  | none => "submit"
  | some t => if t ∈ ["submit", "reset", "button"] then t else "submit"

/-- The `.id` IDL property: reflects the id attribute, "" when absent. -/
def DomElement.idProp (e : DomElement) : String := e.idAttr.getD ""

/-- The `.name` IDL property: reflects the name attribute, "" when absent. -/
def DomElement.nameProp (e : DomElement) : String := e.nameAttr.getD ""

/-- The `.placeholder` IDL property: reflects the placeholder attribute,
"" when absent. -/
def DomElement.placeholderProp (e : DomElement) : String :=
  e.placeholderAttr.getD ""

/-- The `.className` IDL property: reflects the class attribute, "" when
absent. -/
def DomElement.classNameProp (e : DomElement) : String := e.classAttr.getD ""

/-- The `.type` IDL property for the element kinds the script reads it on:
input reflects limited-to-known-values with default "text"; textarea
returns "textarea"; select returns "select-one"/"select-multiple"; button
reflects limited to submit/reset/button with default "submit".  For other
tags the script never reads `.type`; we return the raw attribute. -/
def DomElement.typeProp (e : DomElement) : String :=
  match e.tag with
  | Tag.input => reflectInputType e.typeAttr
  | Tag.textarea => "textarea"
  | Tag.select => if e.multiple then "select-multiple" else "select-one"
  | Tag.button => reflectButtonType e.typeAttr
  | _ => e.typeAttr.getD ""

/-- `.tagName.toLowerCase()` (tagName is uppercase in HTML documents). -/
def Tag.lowerName : Tag → String
  | Tag.form => "form"
  | Tag.input => "input"
  | Tag.textarea => "textarea"
  | Tag.select => "select"
  | Tag.button => "button"
  | Tag.other s => s.toLower

/-- Matches `document.querySelectorAll("form")`. -/
def isFormQuery (e : DomElement) : Bool := e.tag = Tag.form

/-- Matches `document.querySelectorAll("input, textarea, select")`. -/
def isInputQuery (e : DomElement) : Bool :=
  e.tag = Tag.input ∨ e.tag = Tag.textarea ∨ e.tag = Tag.select

/-- Matches `document.querySelectorAll('button, input[type="submit"],
input[type="button"]')`; the attribute selector compares the raw type
attribute value. -/
def isButtonQuery (e : DomElement) : Bool :=
  e.tag = Tag.button ∨
    (e.tag = Tag.input ∧
      (e.typeAttr = some "submit" ∨ e.typeAttr = some "button"))

/-- Record pushed for each form element (source key `type` is a Lean
keyword and is not present here: form records carry no type field). -/
structure FormEntry where
  tag : String
  selector : String
  id : String
  className : String
  action : String
  deriving DecidableEq, Repr

/-- Record pushed for each input/textarea/select element.  Field
`typeStr` embeds the source key `type` (a Lean keyword). -/
structure InputEntry where
  tag : String
  typeStr : String
  id : String
  name : String
  className : String
  placeholder : String
  selectors : List String
  value : String
  required : Bool
  visible : Bool
  deriving DecidableEq, Repr

/-- Record pushed for each button-query element.  Field `typeStr` embeds
the source key `type` (a Lean keyword). -/
structure ButtonEntry where
  tag : String
  typeStr : String
  id : String
  className : String
  textContent : Option String
  value : String
  selectors : List String
  visible : Bool
  deriving DecidableEq, Repr

/-- One entry of the `collectedElements` array (the three push sites build
three different record shapes). -/
inductive CollectedElement where
  | formEntry (f : FormEntry)
  | inputEntry (i : InputEntry)
  | buttonEntry (b : ButtonEntry)
  deriving DecidableEq, Repr

/-- selectorHints built for an input/textarea/select element: `#id`,
`[name="..."]`, `input[type="..."]`, `[placeholder="..."]`, each pushed
only when the corresponding property is truthy (non-empty string). -/
def inputSelectorHints (input : DomElement) : List String :=
  (if input.idProp ≠ "" then ["#" ++ input.idProp] else []) ++
  (if input.nameProp ≠ "" then ["[name=\"" ++ input.nameProp ++ "\"]"] else []) ++
  (if input.typeProp ≠ "" then ["input[type=\"" ++ input.typeProp ++ "\"]"] else []) ++
  (if input.placeholderProp ≠ "" then
    ["[placeholder=\"" ++ input.placeholderProp ++ "\"]"] else [])

/-- selectorHints built for a button-query element: `#id`, a dot-joined
compound class selector from the non-empty class tokens, `[type="..."]`. -/
def buttonSelectorHints (button : DomElement) : List String :=
  (if button.idProp ≠ "" then ["#" ++ button.idProp] else []) ++
  (if button.classNameProp ≠ "" then
    (let classes := (jsSplitSpace button.classNameProp).filter (fun c => c ≠ "")
     if classes.length > 0 then ["." ++ String.intercalate "." classes] else [])
   else []) ++
  (if button.typeProp ≠ "" then ["[type=\"" ++ button.typeProp ++ "\"]"] else [])

/-- The object pushed for the form at (zero-based) index `index` of the
form enumeration. -/
def formRecord (index : Nat) (form : DomElement) : FormEntry :=
  { tag := "form"
    selector := "form:nth-child(" ++ toString (index + 1) ++ ")"
    id := form.idProp
    className := form.classNameProp
    action := form.actionProp }

/-- The object pushed for an input/textarea/select element. -/
def inputRecord (input : DomElement) : InputEntry :=
  { tag := input.tag.lowerName
    typeStr := input.typeProp
    id := input.idProp
    name := input.nameProp
    className := input.classNameProp
    placeholder := input.placeholderProp
    selectors := inputSelectorHints input
    value := input.valueProp
    required := input.requiredAttr
    visible := input.hasOffsetParent }

/-- The object pushed for a button-query element. -/
def buttonRecord (button : DomElement) : ButtonEntry :=
  { tag := button.tag.lowerName
    typeStr := button.typeProp
    id := button.idProp
    className := button.classNameProp
    textContent := button.textContent.map jsTrim
    value := button.valueProp
    selectors := buttonSelectorHints button
    visible := button.hasOffsetParent }

/-- The anonymous callback passed to page.evaluate: starts from an empty
`collectedElements` array and pushes, in order, one record per form, then
one per input/textarea/select, then one per button-query element, each
enumeration in document order.  The `focus` argument (the selectionArea
hint forwarded by the tool) is received but never read by the callback
body. -/
def extractCallback (focus : String) (doc : List DomElement) :
    List CollectedElement :=
  let collectedElements : List CollectedElement := []
  let collectedElements :=
    ((doc.filter isFormQuery).enum).foldl
      (fun acc p => acc ++ [CollectedElement.formEntry (formRecord p.1 p.2)])
      collectedElements
  let collectedElements :=
    (doc.filter isInputQuery).foldl
      (fun acc input => acc ++ [CollectedElement.inputEntry (inputRecord input)])
      collectedElements
  let collectedElements :=
    (doc.filter isButtonQuery).foldl
      (fun acc button => acc ++ [CollectedElement.buttonEntry (buttonRecord button)])
      collectedElements
  collectedElements

/-- Parameter handling of extract_page_elements: the zod schema allows a
null selectionArea (`.nullable().default("form")`; the zod default fires
only when the property is absent), the destructuring default
`{ selectionArea = "form" }` fires on an absent value, and the JS
or-default `selectionArea || "form"` at the evaluate call maps null and ""
to "form". -/
def resolveSelectionArea : Option String → String
  | none => "form"
  | some s => if s = "" then "form" else s

/-- The extract_page_elements tool execute: resolves the selectionArea
hint, evaluates the extraction callback in the page with the hint as the
script argument, and returns the collected element records. -/
def extractPageElements (selectionArea : Option String)
    (doc : List DomElement) : List CollectedElement :=
  extractCallback (resolveSelectionArea selectionArea) doc

/-- The three enumerations as plain maps, used to state the shape of the
extractor's output. -/
def formEnumeration (doc : List DomElement) : List CollectedElement :=
  ((doc.filter isFormQuery).enum).map
    (fun p => CollectedElement.formEntry (formRecord p.1 p.2))

/-- Input/textarea/select enumeration in document order. -/
def inputEnumeration (doc : List DomElement) : List CollectedElement :=
  (doc.filter isInputQuery).map
    (fun input => CollectedElement.inputEntry (inputRecord input))

/-- Clickable-control enumeration in document order. -/
def buttonEnumeration (doc : List DomElement) : List CollectedElement :=
  (doc.filter isButtonQuery).map
    (fun button => CollectedElement.buttonEntry (buttonRecord button))

theorem foldl_push_eq_append {α β : Type} (l : List α) (f : α → β)
    (init : List β) :
    l.foldl (fun acc x => acc ++ [f x]) init = init ++ l.map f := by
  induction l generalizing init with
  | nil => simp
  | cons a l ih => simp [List.foldl_cons, ih, List.append_assoc]

theorem extract_eq_concat (selectionArea : Option String)
    (doc : List DomElement) :
    extractPageElements selectionArea doc =
      formEnumeration doc ++ inputEnumeration doc ++ buttonEnumeration doc := by
  unfold extractPageElements extractCallback formEnumeration
    inputEnumeration buttonEnumeration
  simp [foldl_push_eq_append, List.append_assoc]

/-! ### Click and type tools

Playwright primitives are modelled as transitions on a page state that
either return the new state or throw (Except carrying the error message
and the state at throw time).  `Pw.visible` is the oracle for whether
`waitForSelector(sel, state: "visible", timeout)` resolves within its
timeout. -/

/-- Behaviour of the browser for this page: which selectors reach the
visible state within a waitForSelector timeout. -/
structure Pw where
  visible : String → Bool

/-- Observable page state the click/type tools can mutate: the value of
each field (by selector) and the history of clicks performed. -/
structure PageSt where
  fields : String → String
  clicks : List String

/-- Message of the TimeoutError thrown by waitForSelector (modelled after
Playwright's message text). -/
def timeoutMessage (selector : String) (timeout : Nat) : String :=
  "Timeout " ++ toString timeout ++ "ms exceeded waiting for selector " ++
    selector ++ " to be visible"

/-- `page.waitForSelector(selector, state: "visible", timeout)`: resolves
leaving the page unchanged, or throws a TimeoutError. -/
def waitForSelectorVisible (pw : Pw) (selector : String) (timeout : Nat)
    (st : PageSt) : Except (String × PageSt) (Unit × PageSt) :=
  if pw.visible selector then Except.ok ((), st)
  else Except.error (timeoutMessage selector timeout, st)

/-- `page.click(selector)`: records the click on the page. -/
def pageClick (selector : String) (st : PageSt) :
    Except (String × PageSt) (Unit × PageSt) :=
  Except.ok ((), { st with clicks := st.clicks ++ [selector] })

/-- `page.fill(selector, text)`: sets the field's value. -/
def pageFill (selector text : String) (st : PageSt) :
    Except (String × PageSt) (Unit × PageSt) :=
  Except.ok ((),
    { st with fields := fun s => if s = selector then text else st.fields s })

/-- `page.waitForTimeout(ms)`: settle delay, no page mutation. -/
def pageWaitForTimeout (ms : Nat) (st : PageSt) :
    Except (String × PageSt) (Unit × PageSt) :=
  Except.ok ((), st)

/-- clickOnElement tool execute: try waitForSelector (visible, 10000ms),
click, settle 1000ms, return a success string; catch returns the failure
string built from the selector and the error message.  The function
returns normally in both cases (the catch swallows the throw). -/
def clickOnElementTool (pw : Pw) (selector : String) (st : PageSt) :
    String × PageSt :=
  match (do
      let (_, st1) ← waitForSelectorVisible pw selector 10000 st
      let (_, st2) ← pageClick selector st1
      let (_, st3) ← pageWaitForTimeout 1000 st2
      pure ("Successfully clicked on element: " ++ selector, st3) :
      Except (String × PageSt) (String × PageSt)) with
  | Except.ok r => r
  | Except.error (msg, stE) =>
      ("Failed to click element " ++ selector ++ ": " ++ msg, stE)

/-- type tool execute: try waitForSelector (visible, 10000ms), fill with
"" (clear), fill with the text, settle 500ms, return a success string;
catch returns the failure string. -/
def typeTool (pw : Pw) (selector text : String) (st : PageSt) :
    String × PageSt :=
  match (do
      let (_, st1) ← waitForSelectorVisible pw selector 10000 st
      let (_, st2) ← pageFill selector "" st1
      let (_, st3) ← pageFill selector text st2
      let (_, st4) ← pageWaitForTimeout 500 st3
      pure ("Successfully typed \"" ++ text ++ "\" into element: " ++ selector,
        st4) :
      Except (String × PageSt) (String × PageSt)) with
  | Except.ok r => r
  | Except.error (msg, stE) =>
      ("Failed to type into element " ++ selector ++ ": " ++ msg, stE)

/-! ### take_screenshot tool -/

/-- The object the screenshot execute returns on success. -/
structure ScreenshotResult where
  resultType : String
  sourceType : String
  mediaType : String
  data : String
  description : String
  deriving DecidableEq, Repr

/-- The path argument of `page.screenshot`: the supplied path when truthy
(non-empty), otherwise the time-stamped default built from `Date.now()`. -/
def screenshotSavePath (path : String) (now : Nat) : String :=
  if path ≠ "" then path else "screenshot-" ++ toString now ++ ".png"

/-- take_screenshot tool execute.  `pageScreenshot` is the behaviour of
`page.screenshot` on the save path (ok carries the captured bytes already
base64-encoded by `Buffer.toString("base64")`; error carries the
rejection message); `now` is `Date.now()`.  The body has no try/catch, so
a capture failure propagates out of the execute function as a thrown
fault (Except.error) instead of being returned as a result value. -/
def takeScreenshotTool (pageScreenshot : String → Except String String)
    (now : Nat) (path : String) : Except String ScreenshotResult :=
  match pageScreenshot (screenshotSavePath path now) with
  | Except.error e => Except.error e
  | Except.ok base64 =>
      Except.ok
        { resultType := "image"
          sourceType := "base64"
          mediaType := "image/png"
          data := base64
          description := "Current page screenshot" }

/-! ### zod parameter schemas (validate-before-dispatch) -/

/-- Minimal JSON values for tool-call arguments. -/
inductive JsonValue where
  | str (s : String)
  | num (n : Int)
  | null
  deriving DecidableEq, Repr

/-- zod schema of take_screenshot, `z.object` with `path: z.string()`:
the path property is required and must be a string (no `.optional()`,
`.nullable()` or `.default(...)` modifier in the source). -/
def parseScreenshotArgs (args : List (String × JsonValue)) :
    Except String String :=
  match args.lookup "path" with
  | some (JsonValue.str s) => Except.ok s
  | some _ => Except.error "path: expected string"
  | none => Except.error "path: required"

/-- zod schema of wait, `z.object` with `duration: z.number()`: any number
is accepted (no `.nonnegative()` or `.min(...)` constraint in the
source). -/
def parseWaitArgs (args : List (String × JsonValue)) : Except String Int :=
  match args.lookup "duration" with
  | some (JsonValue.num n) => Except.ok n
  | some _ => Except.error "duration: expected number"
  | none => Except.error "duration: required"

/-- wait tool execute: waits, then returns the confirmation string. -/
def waitToolExecute (duration : Int) : String :=
  "Waited for " ++ toString duration ++ " milliseconds."

/-- Validate-then-dispatch for the wait tool: arguments that fail the
schema never reach the execute function; arguments that pass are handed to
it. -/
def waitToolDispatch (args : List (String × JsonValue)) :
    Except String String :=
  match parseWaitArgs args with
  | Except.ok duration => Except.ok (waitToolExecute duration)
  | Except.error e => Except.error e

/-! ### main: intake, run, teardown -/

/-- The fixed default instruction substituted for an empty intake. -/
def defaultTask : String := "Automate the login process on the website."

/-- askUser resolves with the operator's line trimmed. -/
def askUserResult (raw : String) : String := jsTrim raw

/-- Outcome of `runner.run(agent, query, maxTurns: 30)`: a final answer
(finalOutput may be undefined), a MaxTurnsExceededError thrown when the
turn budget is exhausted, or any other uncaught failure. -/
inductive RunOutcome where
  | finalAnswer (text : Option String)
  | maxTurnsExceeded (message : String)
  | failure (message : String)
  deriving DecidableEq, Repr

/-- Observable steps of main, in order (chalk colour codes elided). -/
inductive Event where
  | printDefaultNotice (line : String)
  | printTask (line : String)
  | printResultBox (content : String)
  | printErrorBox (content : String)
  | browserClose
  deriving DecidableEq, Repr

/-- The source's substitution test `!query || query.trim().length === 0`
applied to the intake result. -/
def taskSubstituted (raw : String) : Bool :=
  askUserResult raw = "" ∨ jsTrim (askUserResult raw) = ""

/-- The task query main runs: the intake result, or defaultTask when the
substitution test fired. -/
def taskQuery (raw : String) : String :=
  if taskSubstituted raw then defaultTask else askUserResult raw

/-- main: obtain the query from askUser; if it is falsy or trims to empty,
substitute defaultTask and print the substitution notice; print the task
line; run the agent inside try/catch, printing the result box on success
and the error box on a caught throw (MaxTurnsExceededError included); then
close the browser. -/
def mainEvents (raw : String) (outcome : RunOutcome) : List Event :=
  ((if taskSubstituted raw then
      [Event.printDefaultNotice ("Using default task: " ++ defaultTask)]
    else []) ++
   [Event.printTask ("Task: " ++ taskQuery raw)] ++
   (match outcome with
    | RunOutcome.finalAnswer t =>
        [Event.printResultBox
          ("Result:\n" ++ t.getD "Task completed successfully!")]
    | RunOutcome.maxTurnsExceeded m => [Event.printErrorBox ("Error:\n" ++ m)]
    | RunOutcome.failure m => [Event.printErrorBox ("Error:\n" ++ m)])) ++
  [Event.browserClose]

/-! ### Helper lemmas about the extractor -/

theorem inputSelectorHints_head_of_id (e : DomElement) (h : e.idProp ≠ "") :
    (inputSelectorHints e).head? = some ("#" ++ e.idProp) := by
  unfold inputSelectorHints
  simp [h]

theorem buttonSelectorHints_head_of_id (e : DomElement) (h : e.idProp ≠ "") :
    (buttonSelectorHints e).head? = some ("#" ++ e.idProp) := by
  unfold buttonSelectorHints
  simp [h]

theorem typeProp_ne_empty_of_inputQuery (e : DomElement)
    (h : isInputQuery e = true) : e.typeProp ≠ "" := by
  unfold isInputQuery at h
  rw [decide_eq_true_eq] at h
  unfold DomElement.typeProp
  rcases h with h | h | h <;> rw [h]
  · unfold reflectInputType
    cases e.typeAttr with
    | none => simp
    | some t =>
      by_cases ht : t ∈ validInputTypes
      · simp only [ht, if_pos]
        intro he
        rw [he] at ht
        revert ht
        decide
      · simp [ht]
  · simp
  · by_cases hm : e.multiple <;> simp [hm]

theorem typeProp_ne_empty_of_buttonQuery (e : DomElement)
    (h : isButtonQuery e = true) : e.typeProp ≠ "" := by
  unfold isButtonQuery at h
  rw [decide_eq_true_eq] at h
  unfold DomElement.typeProp
  rcases h with h | ⟨h, h'⟩
  · rw [h]
    unfold reflectButtonType
    cases e.typeAttr with
    | none => simp
    | some t =>
      by_cases ht : t ∈ ["submit", "reset", "button"]
      · simp only [ht, if_pos]
        intro he
        rw [he] at ht
        revert ht
        decide
      · simp [ht]
  · rw [h]
    rcases h' with h' | h' <;> rw [h']
    · show reflectInputType (some "submit") ≠ ""
      decide
    · show reflectInputType (some "button") ≠ ""
      decide

theorem inputSelectorHints_ne_nil (e : DomElement)
    (h : isInputQuery e = true) : inputSelectorHints e ≠ [] := by
  have ht := typeProp_ne_empty_of_inputQuery e h
  unfold inputSelectorHints
  simp [ht, List.append_eq_nil]

theorem buttonSelectorHints_ne_nil (e : DomElement)
    (h : isButtonQuery e = true) : buttonSelectorHints e ≠ [] := by
  have ht := typeProp_ne_empty_of_buttonQuery e h
  unfold buttonSelectorHints
  simp [ht, List.append_eq_nil]

/-! ### Claims -/

/-- C1: for every extract_page_elements call, every returned
input-category or button-category element record whose element has a
non-empty id lists the id-based selector as the first entry of its
selector list. -/
theorem extract_id_selector_ranked_first (selectionArea : Option String)
    (doc : List DomElement) (ce : CollectedElement)
    (hmem : ce ∈ extractPageElements selectionArea doc) :
    (∀ i, ce = CollectedElement.inputEntry i → i.id ≠ "" →
      i.selectors.head? = some ("#" ++ i.id)) ∧
    (∀ b, ce = CollectedElement.buttonEntry b → b.id ≠ "" →
      b.selectors.head? = some ("#" ++ b.id)) := by
  rw [extract_eq_concat] at hmem
  constructor
  · intro i hce hid
    subst hce
    rcases List.mem_append.mp hmem with hfi | hbtn
    · rcases List.mem_append.mp hfi with hform | hinput
      · obtain ⟨p, _, hp⟩ := List.mem_map.mp hform
        simp at hp
      · obtain ⟨e, _, heq⟩ := List.mem_map.mp hinput
        injection heq with h
        subst h
        simp only [inputRecord] at hid ⊢
        exact inputSelectorHints_head_of_id e hid
    · obtain ⟨e, _, heq⟩ := List.mem_map.mp hbtn
      simp at heq
  · intro b hce hid
    subst hce
    rcases List.mem_append.mp hmem with hfi | hbtn
    · rcases List.mem_append.mp hfi with hform | hinput
      · obtain ⟨p, _, hp⟩ := List.mem_map.mp hform
        simp at hp
      · obtain ⟨e, _, heq⟩ := List.mem_map.mp hinput
        simp at heq
    · obtain ⟨e, _, heq⟩ := List.mem_map.mp hbtn
      injection heq with h
      subst h
      simp only [buttonRecord] at hid ⊢
      exact buttonSelectorHints_head_of_id e hid

/-- Sample document: one email input with an id, inside a page that also
has a submit button with an id. -/
def emailInput : DomElement :=
  { tag := Tag.input
    idAttr := some "email"
    nameAttr := some "email"
    typeAttr := some "email"
    placeholderAttr := some "Enter email"
    classAttr := none
    multiple := false
    valueProp := ""
    requiredAttr := true
    textContent := some ""
    actionProp := ""
    hasOffsetParent := true }

/-- Sample submit button with an id. -/
def submitButton : DomElement :=
  { tag := Tag.button
    idAttr := some "submit"
    nameAttr := none
    typeAttr := some "submit"
    placeholderAttr := none
    classAttr := some "btn btn-primary"
    multiple := false
    valueProp := ""
    requiredAttr := false
    textContent := some " Sign in "
    actionProp := ""
    hasOffsetParent := true }

theorem extract_id_selector_ranked_first_witness :
    (inputRecord emailInput).selectors.head? =
      some ("#" ++ (inputRecord emailInput).id) :=
  (extract_id_selector_ranked_first none [emailInput, submitButton]
      (CollectedElement.inputEntry (inputRecord emailInput))
      (by decide)).1
    (inputRecord emailInput) rfl (by decide)

/-- C2: for every click or type call whose target selector does not reach
the visible state within the timeout, the execute returns a descriptive
failure string (it returns normally, it does not throw) and the page state
is unchanged: no click is recorded and no field is cleared or filled. -/
theorem click_type_timeout_returns_failure_and_preserves_page
    (pw : Pw) (selector text : String) (st : PageSt)
    (h : pw.visible selector = false) :
    clickOnElementTool pw selector st =
      ("Failed to click element " ++ selector ++ ": " ++
        timeoutMessage selector 10000, st) ∧
    typeTool pw selector text st =
      ("Failed to type into element " ++ selector ++ ": " ++
        timeoutMessage selector 10000, st) := by
  constructor <;>
    · simp only [clickOnElementTool, typeTool, waitForSelectorVisible, h,
        Bool.false_eq_true, if_false]
      rfl

/-- A browser in which no selector ever becomes visible. -/
def pwNoneVisible : Pw := { visible := fun _ => false }

/-- A page with empty fields and no clicks performed. -/
def emptyPage : PageSt := { fields := fun _ => "", clicks := [] }

theorem click_type_timeout_witness :
    clickOnElementTool pwNoneVisible "#login" emptyPage =
      ("Failed to click element " ++ "#login" ++ ": " ++
        timeoutMessage "#login" 10000, emptyPage) ∧
    typeTool pwNoneVisible "#login" "chai" emptyPage =
      ("Failed to type into element " ++ "#login" ++ ": " ++
        timeoutMessage "#login" 10000, emptyPage) :=
  click_type_timeout_returns_failure_and_preserves_page
    pwNoneVisible "#login" "chai" emptyPage rfl

/-- C3: every task run, whether the runner returns a final answer
(COMPLETED) or throws (ABORTED: turn-budget exhaustion or any other
uncaught failure), ends with the browser.close teardown as its final
step. -/
theorem main_teardown_always_runs (raw : String) (outcome : RunOutcome) :
    (mainEvents raw outcome).getLast? = some Event.browserClose := by
  unfold mainEvents
  exact List.getLast?_concat _

/-- C4 counterexample: when the capture operation fails, the
take_screenshot execute does not return a failure result: the fault
escalates out of the execute (Except.error), refuting the claim that the
tool itself captures the failure and returns a descriptive result. -/
theorem screenshot_failure_escalates_cex :
    takeScreenshotTool
      (fun _ => Except.error "Target page, context or browser has been closed")
      1739530000000 "shot.png" =
      Except.error "Target page, context or browser has been closed" := rfl

/-- C4 amended: for every take_screenshot call in which the capture
operation fails, the failure escalates out of the tool's execute function
as a thrown fault; the tool body has no try/catch and returns no failure
result for that call. -/
theorem screenshot_failure_is_thrown (err : String) (now : Nat)
    (path : String) :
    takeScreenshotTool (fun _ => Except.error err) now path =
      Except.error err := rfl

/-- C5: every input-category or button-category element record returned by
extract_page_elements carries a non-empty selector-candidate list, on
every page and for every extracted element (elements lacking id, name,
type, placeholder and class attributes included: the reflected type
property of an input/textarea/select/button element is never empty, so the
type-based candidate is always present even when every other candidate is
skipped). -/
theorem extract_selectors_nonempty (selectionArea : Option String)
    (doc : List DomElement) (ce : CollectedElement)
    (hmem : ce ∈ extractPageElements selectionArea doc) :
    (∀ i, ce = CollectedElement.inputEntry i → i.selectors ≠ []) ∧
    (∀ b, ce = CollectedElement.buttonEntry b → b.selectors ≠ []) := by
  rw [extract_eq_concat] at hmem
  constructor
  · intro i hce
    subst hce
    rcases List.mem_append.mp hmem with hfi | hbtn
    · rcases List.mem_append.mp hfi with hform | hinput
      · obtain ⟨p, _, hp⟩ := List.mem_map.mp hform
        simp at hp
      · obtain ⟨e, he, heq⟩ := List.mem_map.mp hinput
        injection heq with h
        subst h
        simp only [inputRecord]
        exact inputSelectorHints_ne_nil e (List.mem_filter.mp he).2
    · obtain ⟨e, _, heq⟩ := List.mem_map.mp hbtn
      simp at heq
  · intro b hce
    subst hce
    rcases List.mem_append.mp hmem with hfi | hbtn
    · rcases List.mem_append.mp hfi with hform | hinput
      · obtain ⟨p, _, hp⟩ := List.mem_map.mp hform
        simp at hp
      · obtain ⟨e, _, heq⟩ := List.mem_map.mp hinput
        simp at heq
    · obtain ⟨e, he, heq⟩ := List.mem_map.mp hbtn
      injection heq with h
      subst h
      simp only [buttonRecord]
      exact buttonSelectorHints_ne_nil e (List.mem_filter.mp he).2

/-- A bare input element lacking id, name, type, placeholder and class
attributes. -/
def bareInput : DomElement :=
  { tag := Tag.input
    idAttr := none
    nameAttr := none
    typeAttr := none
    placeholderAttr := none
    classAttr := none
    multiple := false
    valueProp := ""
    requiredAttr := false
    textContent := some ""
    actionProp := ""
    hasOffsetParent := true }

theorem extract_selectors_nonempty_witness :
    (inputRecord bareInput).selectors ≠ [] :=
  (extract_selectors_nonempty none [bareInput]
      (CollectedElement.inputEntry (inputRecord bareInput))
      (by decide)).1
    (inputRecord bareInput) rfl

/-- C6: every extract_page_elements call returns exactly the form
enumeration, then the input/textarea/select enumeration, then the
clickable-control enumeration, concatenated in that order, each in
document order, with no deduplication across categories (an element
matched by two category queries contributes one record per category). -/
theorem extract_is_concatenation_of_enumerations
    (selectionArea : Option String) (doc : List DomElement) :
    extractPageElements selectionArea doc =
      formEnumeration doc ++ inputEnumeration doc ++ buttonEnumeration doc :=
  extract_eq_concat selectionArea doc

/-- C7: the zod parameter schema of take_screenshot declares path as a
required string, so a call omitting path is rejected by validation and
never reaches the execute function — contradicting the optional-path
contract; the execute body nevertheless falls back to the time-stamped
default filename for an empty path, which is the behaviour the contract
describes. -/
theorem screenshot_path_required_but_default_exists :
    parseScreenshotArgs [] = Except.error "path: required" ∧
    screenshotSavePath "" 1739530000000 = "screenshot-1739530000000.png" :=
  ⟨rfl, rfl⟩

/-- C8 counterexample: a wait call with duration -5 passes the declared
schema and reaches the execute function, which returns the confirmation
string — refuting the claim that negative durations are rejected by
validation. -/
theorem wait_negative_duration_reaches_execute_cex :
    waitToolDispatch [("duration", JsonValue.num (-5))] =
      Except.ok "Waited for -5 milliseconds." := rfl

/-- C8 amended: the declared wait schema constrains duration only to be a
number; every negative duration passes validation and reaches the tool's
execute function. -/
theorem wait_schema_admits_negative_durations (n : Int) (h : n < 0) :
    waitToolDispatch [("duration", JsonValue.num n)] =
      Except.ok (waitToolExecute n) := rfl

theorem wait_schema_admits_negative_durations_witness :
    waitToolDispatch [("duration", JsonValue.num (-7))] =
      Except.ok (waitToolExecute (-7)) ∧ (-7 : Int) < 0 :=
  ⟨wait_schema_admits_negative_durations (-7) (by decide), by decide⟩

/-- C9: for every run whose intake answer is empty or all whitespace, main
substitutes the fixed default instruction, prints the substitution notice,
and the reported task line shows the default instruction. -/
theorem empty_instruction_uses_default_and_reports
    (raw : String) (outcome : RunOutcome) (h : jsTrim raw = "") :
    Event.printDefaultNotice ("Using default task: " ++ defaultTask) ∈
        mainEvents raw outcome ∧
    Event.printTask ("Task: " ++ defaultTask) ∈ mainEvents raw outcome := by
  have hsub : taskSubstituted raw = true := by
    simp [taskSubstituted, askUserResult, h]
  have hq : taskQuery raw = defaultTask := by simp [taskQuery, hsub]
  constructor <;> simp [mainEvents, hsub, hq]

theorem empty_instruction_witness :
    Event.printDefaultNotice ("Using default task: " ++ defaultTask) ∈
        mainEvents "   " (RunOutcome.finalAnswer none) ∧
    Event.printTask ("Task: " ++ defaultTask) ∈
        mainEvents "   " (RunOutcome.finalAnswer none) :=
  empty_instruction_uses_default_and_reports "   "
    (RunOutcome.finalAnswer none) (by decide)

/-- C10: the extract_page_elements output does not depend on the
selectionArea argument: the hint is resolved and passed into the page
evaluation, but the evaluate callback never reads it, so two calls on the
same document return equal sequences for any two hints. -/
theorem extract_independent_of_selection_area (s1 s2 : Option String)
    (doc : List DomElement) :
    extractPageElements s1 doc = extractPageElements s2 doc := rfl

end BrowserAgent
